import Mathlib

/-
Verification of the reconciliation and reference-resolution core of the
gpu-ninja/operator-utils repository (Go), as a shallow embedding in Lean 4.

The embedding mirrors:
  - updater/hash.go          : AnnotationKey, GetHash, StoreHash, HashObject
  - updater (updater.go)     : CreateOrUpdateFromTemplate, UpdateStatus
  - updater (older variant)  : CreateOrUpdate, UpdateStatus (with re-fetch)
  - retryable                : Retryable wrapper, IsRetryable
  - reference                : ObjectReference.Resolve, LocalSecretReference.Resolve,
                               LocalConfigMapReference.Resolve

Go machine-level conventions are modelled explicitly:
  - a Kubernetes object is the `Resource` structure (metadata, annotations as an
    association list, store-assigned resourceVersion, spec and status payloads);
  - Go errors are the inductive `GoErr`; fmt.Errorf with a wrapped cause is
    `GoErr.wrapped`, apierrors NotFound is `GoErr.notFound`, and the retryable
    package's wrapper struct is `GoErr.retryableTag`.  apierrors.IsNotFound
    unwraps fmt wrappers (errors.As); the retryable wrapper embeds only the
    error interface and therefore does not unwrap;
  - the controller-runtime client is the abstract `Client` record (get, create,
    update, status update), instantiated by `mapClient` with a deterministic
    key-value store that stamps a fresh resourceVersion on every write, and by
    small adversarial clients for error paths;
  - 32-bit FNV-1a is implemented on Nat with explicit reduction mod 2^32.
-/

namespace OpUtils

/-- Compound key identifying a Resource in the store (client.ObjectKey). -/
structure ObjKey where
  name : String
  ns : String
deriving DecidableEq, Repr

/-- A Kubernetes-style resource: type identity, object metadata (with the
annotations map as an association list), the store-assigned version token and
creation timestamp, and opaque spec/status payloads. -/
structure Resource where
  apiVersion : String
  kind : String
  name : String
  ns : String
  annots : List (String × String)
  resourceVersion : String
  creationTimestamp : String
  content : String
  statusContent : String
deriving DecidableEq, Repr

/-- Field-wise copy of a Resource, mirroring the generated DeepCopyObject. -/
def deepCopy (r : Resource) : Resource :=
  { apiVersion := r.apiVersion
    kind := r.kind
    name := r.name
    ns := r.ns
    annots := r.annots
    resourceVersion := r.resourceVersion
    creationTimestamp := r.creationTimestamp
    content := r.content
    statusContent := r.statusContent }

/-- Go error values, as they arise in this repository: a plain error, an
apierrors NotFound, an fmt.Errorf wrapper with a cause, and the retryable
package's wrapper struct. -/
inductive GoErr where
  | base : String → GoErr
  | notFound : String → GoErr
  | wrapped : String → GoErr → GoErr
  | retryableTag : GoErr → GoErr
deriving DecidableEq, Repr

/-- apierrors.IsNotFound: inspects the status reason, unwrapping fmt.Errorf
wrappers (errors.As).  The retryable wrapper embeds only the error interface
and exposes no Unwrap method, so unwrapping stops there. -/
def isNotFoundErr : GoErr → Bool
  | .notFound _ => true
  | .wrapped _ e => isNotFoundErr e
  | _ => false

/-- retryable.IsRetryable: a plain type assertion on the top-level error value. -/
def IsRetryable : GoErr → Bool
  | .retryableTag _ => true
  | _ => false

/-- retryable.Retryable: wraps an error, tagging it as retryable. -/
def Retryable (e : GoErr) : GoErr := .retryableTag e

/- ### Annotation association-list primitives (Go map reads/writes) -/

/-- Lookup in an annotations map. -/
def getA : List (String × String) → String → Option String
  | [], _ => none
  | (k, v) :: rest, key => if k = key then some v else getA rest key

/-- Upsert into an annotations map. -/
def putA : List (String × String) → String → String → List (String × String)
  | [], key, v => [(key, v)]
  | (k, w) :: rest, key, v =>
      if k = key then (k, v) :: rest else (k, w) :: putA rest key v

/- ### updater/hash.go -/

/-- AnnotationKey from updater/hash.go. -/
def AnnotationKey : String := "gpu-ninja.com/template-hash"

/-- GetHash: returns the stored fingerprint annotation, or the empty string
when the annotations map is nil or the key absent.  (The Go accessor error is
unreachable for actual API objects and is not modelled.) -/
def GetHash (r : Resource) : String := (getA r.annots AnnotationKey).getD ""

/-- StoreHash: upserts the fingerprint into the resource's annotation map,
creating the map if absent. -/
def StoreHash (r : Resource) (h : String) : Resource :=
  { r with annots := putA r.annots AnnotationKey h }

/-- Rendering of an annotations map entry list for dump.ForHash. -/
def renderPairs : List (String × String) → String
  | [] => ""
  | (k, v) :: rest => k ++ ":" ++ v ++ " " ++ renderPairs rest

/-- Insert one pair into a key-sorted pair list. -/
def insertPair (p : String × String) : List (String × String) → List (String × String)
  | [] => [p]
  | q :: rest => if p.1 ≤ q.1 then p :: q :: rest else q :: insertPair p rest

/-- Sort a pair list by key (spew SortKeys in dump.ForHash). -/
def sortPairs : List (String × String) → List (String × String)
  | [] => []
  | p :: rest => insertPair p (sortPairs rest)

/-- dump.ForHash: deterministic deep rendering of the ENTIRE object — every
field, the store-assigned bookkeeping ones and the annotations map (sorted
keys) included.  The Go implementation is a spew dump of all exported fields;
it excludes nothing. -/
def dumpForHash (r : Resource) : String :=
  "TypeMeta(" ++ r.apiVersion ++ " " ++ r.kind ++ ") ObjectMeta(" ++
    r.name ++ " " ++ r.ns ++ " rv:" ++ r.resourceVersion ++
    " ts:" ++ r.creationTimestamp ++ " ann:(" ++
    renderPairs (sortPairs r.annots) ++ ")) Spec(" ++ r.content ++
    ") Status(" ++ r.statusContent ++ ")"

/-- UTF-8 encoding of one character, as the byte values written by
io.WriteString. -/
def charBytes (c : Char) : List Nat :=
  let n := c.toNat
  if n < 128 then [n]
  else if n < 2048 then [192 + n / 64, 128 + n % 64]
  else if n < 65536 then [224 + n / 4096, 128 + (n / 64) % 64, 128 + n % 64]
  else [240 + n / 262144, 128 + (n / 4096) % 64, 128 + (n / 64) % 64, 128 + n % 64]

/-- UTF-8 bytes of a string. -/
def strBytes (s : String) : List Nat :=
  s.data.foldr (fun c acc => charBytes c ++ acc) []

/-- One step of 32-bit FNV-1a: xor the byte in, multiply by the FNV prime,
reduce mod 2^32. -/
def fnv32aStep (h b : Nat) : Nat := ((h ^^^ b) * 16777619) % 4294967296

/-- 32-bit FNV-1a over a byte sequence (hash/fnv New32a + Write). -/
def fnv32a (bytes : List Nat) : Nat := bytes.foldl fnv32aStep 2166136261

/-- One lowercase hex digit. -/
def hexDigit (n : Nat) : Char :=
  if n < 10 then Char.ofNat (48 + n) else Char.ofNat (87 + n)

/-- hex.EncodeToString of the big-endian 4-byte FNV sum: 8 lowercase hex
characters. -/
def hex8 (n : Nat) : String :=
  String.mk ((List.range 8).map (fun i => hexDigit ((n / 16 ^ (7 - i)) % 16)))

/-- HashObject from updater/hash.go: 32-bit FNV-1a of the dump.ForHash
rendering of the whole object, hex encoded. -/
def HashObject (r : Resource) : String :=
  hex8 (fnv32a (strBytes (dumpForHash r)))

/- ### The store client -/

/-- Trace of store round trips performed by one updater call. -/
structure Trace where
  gets : Nat
  creates : Nat
  updates : Nat
  statusWrites : Nat
deriving DecidableEq, Repr

/-- The external store client interface used by the updater package
(controller-runtime client.Client), parametric in the client's state. -/
structure Client (σ : Type) where
  get : σ → ObjKey → Except GoErr Resource × σ
  create : σ → ObjKey → Resource → Except GoErr Unit × σ
  update : σ → ObjKey → Resource → Except GoErr Unit × σ
  statusUpdate : σ → ObjKey → Resource → Except GoErr Unit × σ

/-- Result of one embedded updater call: the Go return value, the client state
after the call, and the trace of store round trips. -/
structure Run (σ : Type) (α : Type) where
  res : Except GoErr α
  st : σ
  tr : Trace
deriving Repr

/- ### Concrete deterministic store (the nominal external store) -/

/-- Association-list lookup by object key. -/
def findObj : List (ObjKey × Resource) → ObjKey → Option Resource
  | [], _ => none
  | (k, r) :: rest, key => if k = key then some r else findObj rest key

/-- Replace the stored object at a key. -/
def replaceObj : List (ObjKey × Resource) → ObjKey → Resource → List (ObjKey × Resource)
  | [], _, _ => []
  | (k, r) :: rest, key, r' =>
      if k = key then (k, r') :: rest else (k, r) :: replaceObj rest key r'

/-- Deterministic key-value store with an optimistic-concurrency version
counter: every accepted write stamps a fresh resourceVersion. -/
structure Store where
  objs : List (ObjKey × Resource)
  nextVer : Nat
deriving DecidableEq, Repr

def emptyStore : Store := ⟨[], 1⟩

/-- The nominal store client: get returns the stored copy or NotFound; create
fails on an existing key, update and status update fail on a missing key;
every accepted write stamps a fresh version token. -/
def mapClient : Client Store where
  get s k :=
    match findObj s.objs k with
    | some r => (.ok r, s)
    | none => (.error (.notFound k.name), s)
  create s k r :=
    match findObj s.objs k with
    | some _ => (.error (.base "already exists"), s)
    | none =>
        (.ok (),
         ⟨(k, { r with resourceVersion := toString s.nextVer }) :: s.objs,
          s.nextVer + 1⟩)
  update s k r :=
    match findObj s.objs k with
    | none => (.error (.notFound k.name), s)
    | some _ =>
        (.ok (),
         ⟨replaceObj s.objs k { r with resourceVersion := toString s.nextVer },
          s.nextVer + 1⟩)
  statusUpdate s k r :=
    match findObj s.objs k with
    | none => (.error (.notFound k.name), s)
    | some old =>
        (.ok (),
         ⟨replaceObj s.objs k
            { old with statusContent := r.statusContent,
                       resourceVersion := toString s.nextVer },
          s.nextVer + 1⟩)

/- ### updater: CreateOrUpdateFromTemplate (part_001 lines 35-84) -/

/-- Object key derived from an object's own metadata
(client.ObjectKeyFromObject). -/
def objectKeyFromObject (r : Resource) : ObjKey := ⟨r.name, r.ns⟩

/-- CreateOrUpdateFromTemplate: hash the template, deep-copy it into a working
object, fetch the live object into the working object; on NotFound stamp the
hash, create, re-fetch once (a second NotFound is non-fatal); on a successful
fetch compare the live object's stored hash with the template hash, and on a
mismatch stamp the template hash onto the live object, update, re-fetch once
(NotFound non-fatal).  On a hash match no write is performed.  The Go branches
for a failed DeepCopyObject cast and for StoreHash accessor errors are
unreachable for actual API objects and not modelled.  The trace components
count get, create and update round trips issued on each path. -/
def CreateOrUpdateFromTemplate {σ : Type} (cl : Client σ) (s : σ)
    (template : Resource) : Run σ Resource :=
  let templateHash := HashObject template
  let obj := deepCopy template
  let key := objectKeyFromObject obj
  match cl.get s key with
  | (.error e, s1) =>
    if isNotFoundErr e then
      let obj := StoreHash obj templateHash
      match cl.create s1 key obj with
      | (.error ce, s2) => ⟨.error (.wrapped "failed to create object" ce), s2, ⟨1, 1, 0, 0⟩⟩
      | (.ok _, s2) =>
        match cl.get s2 key with
        | (.error ge, s3) =>
          if isNotFoundErr ge then ⟨.ok obj, s3, ⟨2, 1, 0, 0⟩⟩
          else ⟨.error (.wrapped "failed to get object" ge), s3, ⟨2, 1, 0, 0⟩⟩
        | (.ok fetched, s3) => ⟨.ok fetched, s3, ⟨2, 1, 0, 0⟩⟩
    else ⟨.error (.wrapped "failed to get object" e), s1, ⟨1, 0, 0, 0⟩⟩
  | (.ok live, s1) =>
    let existingHash := GetHash live
    if existingHash ≠ templateHash then
      let obj := StoreHash live templateHash
      match cl.update s1 key obj with
      | (.error ue, s2) => ⟨.error (.wrapped "failed to update object" ue), s2, ⟨1, 0, 1, 0⟩⟩
      | (.ok _, s2) =>
        match cl.get s2 key with
        | (.error ge, s3) =>
          if isNotFoundErr ge then ⟨.ok obj, s3, ⟨2, 0, 1, 0⟩⟩
          else ⟨.error (.wrapped "failed to get object" ge), s3, ⟨2, 0, 1, 0⟩⟩
        | (.ok fetched, s3) => ⟨.ok fetched, s3, ⟨2, 0, 1, 0⟩⟩
    else ⟨.ok live, s1, ⟨1, 0, 0, 0⟩⟩

/- ### updater: CreateOrUpdate (part_001 lines 136-174, older variant) -/

/-- The caller-supplied mutation callback: the Go func() error closure mutating
the working object, modelled as a function from the working object to its
mutated form or an error. -/
abbrev MutateFunc := Option (Resource → Except GoErr Resource)

/-- Apply the optional mutation callback (Go: if f != nil ...). -/
def applyMutate (f : MutateFunc) (r : Resource) : Except GoErr Resource :=
  match f with
  | none => .ok r
  | some g => g r

/-- CreateOrUpdate: fetch by key into the working object; on NotFound stamp
the key fields onto the blank object, mutate, create, and return immediately
(no re-fetch on this branch); on a successful fetch mutate, update, then
re-fetch once tolerating NotFound.  The returned Resource is the final state
of the Go in-out object pointer. -/
def CreateOrUpdate {σ : Type} (cl : Client σ) (s : σ) (key : ObjKey)
    (obj₀ : Resource) (f : MutateFunc) : Run σ Resource :=
  match cl.get s key with
  | (.error e, s1) =>
    if isNotFoundErr e then
      let obj := { obj₀ with name := key.name, ns := key.ns }
      match applyMutate f obj with
      | .error me => ⟨.error (.wrapped "failed to mutate object" me), s1, ⟨1, 0, 0, 0⟩⟩
      | .ok obj =>
        match cl.create s1 key obj with
        | (.error ce, s2) => ⟨.error (.wrapped "failed to create object" ce), s2, ⟨1, 1, 0, 0⟩⟩
        | (.ok _, s2) => ⟨.ok obj, s2, ⟨1, 1, 0, 0⟩⟩
    else ⟨.error (.wrapped "failed to get object" e), s1, ⟨1, 0, 0, 0⟩⟩
  | (.ok live, s1) =>
    match applyMutate f live with
    | .error me => ⟨.error (.wrapped "failed to mutate object" me), s1, ⟨1, 0, 0, 0⟩⟩
    | .ok obj =>
      match cl.update s1 key obj with
      | (.error ue, s2) => ⟨.error (.wrapped "failed to update object" ue), s2, ⟨1, 0, 1, 0⟩⟩
      | (.ok _, s2) =>
        match cl.get s2 key with
        | (.error ge, s3) =>
          if isNotFoundErr ge then ⟨.ok obj, s3, ⟨2, 0, 1, 0⟩⟩
          else ⟨.error (.wrapped "failed to get updated object" ge), s3, ⟨2, 0, 1, 0⟩⟩
        | (.ok fetched, s3) => ⟨.ok fetched, s3, ⟨2, 0, 1, 0⟩⟩

/- ### updater: UpdateStatus (both variants) -/

/-- UpdateStatus (part_001 lines 87-103): fetch by key (fatal on any error,
NotFound included), apply the optional mutation callback (fatal on error, no
write attempted), then issue exactly one status sub-resource write. -/
def UpdateStatus {σ : Type} (cl : Client σ) (s : σ) (key : ObjKey)
    (f : MutateFunc) : Run σ Resource :=
  match cl.get s key with
  | (.error e, s1) => ⟨.error (.wrapped "failed to get object" e), s1, ⟨1, 0, 0, 0⟩⟩
  | (.ok live, s1) =>
    match applyMutate f live with
    | .error me => ⟨.error (.wrapped "failed to mutate object" me), s1, ⟨1, 0, 0, 0⟩⟩
    | .ok obj =>
      match cl.statusUpdate s1 key obj with
      | (.error ue, s2) => ⟨.error (.wrapped "failed to update object" ue), s2, ⟨1, 0, 0, 1⟩⟩
      | (.ok _, s2) => ⟨.ok obj, s2, ⟨1, 0, 0, 1⟩⟩

/-- UpdateStatus, older variant (part_001 lines 176-197): identical, plus one
final re-fetch tolerating NotFound. -/
def UpdateStatusRefetch {σ : Type} (cl : Client σ) (s : σ) (key : ObjKey)
    (f : MutateFunc) : Run σ Resource :=
  match cl.get s key with
  | (.error e, s1) => ⟨.error (.wrapped "failed to get object" e), s1, ⟨1, 0, 0, 0⟩⟩
  | (.ok live, s1) =>
    match applyMutate f live with
    | .error me => ⟨.error (.wrapped "failed to mutate object" me), s1, ⟨1, 0, 0, 0⟩⟩
    | .ok obj =>
      match cl.statusUpdate s1 key obj with
      | (.error ue, s2) => ⟨.error (.wrapped "failed to update object" ue), s2, ⟨1, 0, 0, 1⟩⟩
      | (.ok _, s2) =>
        match cl.get s2 key with
        | (.error ge, s3) =>
          if isNotFoundErr ge then ⟨.ok obj, s3, ⟨2, 0, 0, 1⟩⟩
          else ⟨.error (.wrapped "failed to get updated object" ge), s3, ⟨2, 0, 0, 1⟩⟩
        | (.ok fetched, s3) => ⟨.ok fetched, s3, ⟨2, 0, 0, 1⟩⟩

/- ### Heap-level CreateOrUpdateFromTemplate (for the template frame property) -/

/-- Heap of Go objects; a client.Object value is a pointer, modelled as an
index into the heap. -/
abbrev Heap := List Resource

/-- CreateOrUpdateFromTemplate at the level of object pointers: the template
argument is a pointer `tp` into the heap.  DeepCopyObject allocates a fresh
cell; every subsequent mutation (StoreHash stamping, Get filling the object)
targets only that fresh cell.  Returns the Go result (a pointer, or an error),
the final heap and the final client state.  A dangling template pointer (never
produced by Go) falls into an error branch that leaves the heap unchanged. -/
def CreateOrUpdateFromTemplateHeap {σ : Type} (cl : Client σ) (s : σ)
    (heap : Heap) (tp : Nat) : Except GoErr Nat × Heap × σ :=
  match heap[tp]? with
  | none => (.error (.base "nil template"), heap, s)
  | some template =>
    let templateHash := HashObject template
    let op := heap.length
    let heap1 := heap ++ [deepCopy template]
    let key := objectKeyFromObject template
    match cl.get s key with
    | (.error e, s1) =>
      if isNotFoundErr e then
        let heap2 := heap1.set op (StoreHash (deepCopy template) templateHash)
        match cl.create s1 key (StoreHash (deepCopy template) templateHash) with
        | (.error _, s2) => (.error (.wrapped "failed to create object" (.base "create")), heap2, s2)
        | (.ok _, s2) =>
          match cl.get s2 key with
          | (.error ge, s3) =>
            if isNotFoundErr ge then (.ok op, heap2, s3)
            else (.error (.wrapped "failed to get object" ge), heap2, s3)
          | (.ok fetched, s3) => (.ok op, heap2.set op fetched, s3)
      else (.error (.wrapped "failed to get object" e), heap1, s1)
    | (.ok live, s1) =>
      let heap2 := heap1.set op live
      let existingHash := GetHash live
      if existingHash ≠ templateHash then
        let heap3 := heap2.set op (StoreHash live templateHash)
        match cl.update s1 key (StoreHash live templateHash) with
        | (.error ue, s2) => (.error (.wrapped "failed to update object" ue), heap3, s2)
        | (.ok _, s2) =>
          match cl.get s2 key with
          | (.error ge, s3) =>
            if isNotFoundErr ge then (.ok op, heap3, s3)
            else (.error (.wrapped "failed to get object" ge), heap3, s3)
          | (.ok fetched, s3) => (.ok op, heap3.set op fetched, s3)
      else (.ok op, heap2, s1)

/- ### reference package (part_003) -/

/-- A group/version/kind identity registered in a runtime.Scheme. -/
structure GVK where
  group : String
  version : String
  kind : String
deriving DecidableEq, Repr

/-- schema.GroupVersion.String(): the apiVersion string of a GVK. -/
def groupVersionString (g : GVK) : String :=
  if g.group = "" then g.version else g.group ++ "/" ++ g.version

/-- A schema registry: the set of registered group/version/kinds.  The Go
scheme maps concrete Go types to GVKs; in the embedding a Resource's type
identity is its kind. -/
abbrev Scheme := List GVK

/-- scheme.ObjectKinds(parent): the GVKs registered for the parent's type, or
a NotRegistered error when the type is unknown to the registry. -/
def objectKinds (scheme : Scheme) (parent : Resource) : Except GoErr (List GVK) :=
  match scheme.filter (fun g => g.kind = parent.kind) with
  | [] => .error (.base "type not registered in scheme")
  | gs => .ok gs

/-- One fetch issued by the resolver: the requested apiVersion and kind (set
on the unstructured object) and the object key. -/
structure FetchCall where
  apiVersion : String
  kind : String
  name : String
  ns : String
deriving DecidableEq, Repr

/-- The read-only store client used by the resolver (client.Reader), fetching
a generic/unstructured representation by GVK and key. -/
abbrev Reader := FetchCall → Except GoErr Resource

/-- Result of decoding the fetched generic representation: either the
concrete registered type, or the generic representation itself (cross-schema
fallback). -/
inductive Resolved where
  | concrete : Resource → Resolved
  | generic : Resource → Resolved
deriving DecidableEq, Repr

/-- Whether the universal deserializer can decode the fetched object into a
registered concrete type: its apiVersion/kind must be registered in the
scheme.  When not, Decode fails with a NotRegistered error. -/
def decodeRegistered (scheme : Scheme) (u : Resource) : Bool :=
  scheme.any (fun g => groupVersionString g = u.apiVersion && g.kind = u.kind)

/-- ObjectReference from the reference package. -/
structure ObjectReference where
  name : String
  ns : String
  apiVersion : String
  kind : String
deriving DecidableEq, Repr

/-- The effective namespace a reference resolves against: the reference's own
when non-empty, else the parent's.  (meta.Accessor on the parent cannot fail
for actual API objects and is not modelled.) -/
def effectiveNamespace (ref : ObjectReference) (parent : Resource) : String :=
  if ref.ns = "" then parent.ns else ref.ns

/-- The effective apiVersion a reference resolves against: the reference's own
when non-empty, else derived from the parent's registered type identity
(first registered GVK), failing when the parent's kind cannot be determined
from the registry. -/
def effectiveApiVersion (ref : ObjectReference) (scheme : Scheme)
    (parent : Resource) : Except GoErr String :=
  if ref.apiVersion = "" then
    match objectKinds scheme parent with
    | .error e => .error (.wrapped "failed to get object kinds" e)
    | .ok [] => .error (.base "no object kinds found")
    | .ok (g :: _) => .ok (groupVersionString g)
  else .ok ref.apiVersion

/-- ObjectReference.Resolve: determine the effective apiVersion and namespace,
fetch the target generically; a NotFound fetch error is returned wrapped by
the retryable tag, any other fetch error is wrapped as fatal; decode the
fetched representation via the scheme, falling back to the generic
representation when the type is not registered.  The marshal step and
non-NotRegistered decode errors cannot occur for the objects of this model
and their fatal branches are not reachable.  Also returns the list of fetches
issued (always one once the apiVersion is determined). -/
def ObjectReference.Resolve (ref : ObjectReference) (reader : Reader)
    (scheme : Scheme) (parent : Resource) :
    Except GoErr Resolved × List FetchCall :=
  match effectiveApiVersion ref scheme parent with
  | .error e => (.error e, [])
  | .ok apiVersion =>
    let call : FetchCall :=
      ⟨apiVersion, ref.kind, ref.name, effectiveNamespace ref parent⟩
    match reader call with
    | .error e =>
      if isNotFoundErr e then (.error (Retryable e), [call])
      else (.error (.wrapped "failed to resolve reference" e), [call])
    | .ok u =>
      if decodeRegistered scheme u then (.ok (.concrete u), [call])
      else (.ok (.generic u), [call])

/-- Outcome of a local specialized Resolve, with the unchecked Go type
assertion made explicit: the assertion panics when the resolved object's
dynamic type is not the expected concrete type. -/
inductive LocalOutcome where
  | ok : Resource → LocalOutcome
  | err : GoErr → LocalOutcome
  | panicked : LocalOutcome
deriving DecidableEq, Repr

/-- LocalSecretReference from the reference package. -/
structure LocalSecretReference where
  name : String
deriving DecidableEq, Repr

/-- LocalSecretReference.Resolve: delegates to ObjectReference.Resolve with
apiVersion v1 and kind Secret fixed, then asserts the result to the concrete
Secret type.  When the resolution returned the generic (unstructured)
representation, or a concrete type other than v1 Secret, the unchecked
assertion panics. -/
def LocalSecretReference.Resolve (ref : LocalSecretReference) (reader : Reader)
    (scheme : Scheme) (parent : Resource) : LocalOutcome :=
  let objRef : ObjectReference := ⟨ref.name, "", "v1", "Secret"⟩
  match (ObjectReference.Resolve objRef reader scheme parent).1 with
  | .error e => .err e
  | .ok (.concrete r) =>
      if r.apiVersion = "v1" ∧ r.kind = "Secret" then .ok r else .panicked
  | .ok (.generic _) => .panicked

/-- LocalConfigMapReference from the reference package. -/
structure LocalConfigMapReference where
  name : String
deriving DecidableEq, Repr

/-- LocalConfigMapReference.Resolve: delegates to ObjectReference.Resolve with
apiVersion v1 and kind ConfigMap fixed, then asserts the result to the
concrete ConfigMap type; the assertion panics on the generic fallback. -/
def LocalConfigMapReference.Resolve (ref : LocalConfigMapReference)
    (reader : Reader) (scheme : Scheme) (parent : Resource) : LocalOutcome :=
  let objRef : ObjectReference := ⟨ref.name, "", "v1", "ConfigMap"⟩
  match (ObjectReference.Resolve objRef reader scheme parent).1 with
  | .error e => .err e
  | .ok (.concrete r) =>
      if r.apiVersion = "v1" ∧ r.kind = "ConfigMap" then .ok r else .panicked
  | .ok (.generic _) => .panicked

/- ### Basic lemmas -/

theorem getA_putA (l : List (String × String)) (k v : String) :
    getA (putA l k v) k = some v := by
  induction l with
  | nil => simp [putA, getA]
  | cons p rest ih =>
    by_cases h : p.1 = k
    · cases p; simp_all [putA, getA]
    · cases p; simp_all [putA, getA]

theorem GetHash_StoreHash (r : Resource) (h : String) :
    GetHash (StoreHash r h) = h := by
  simp [GetHash, StoreHash, getA_putA]

theorem deepCopy_eq (r : Resource) : deepCopy r = r := by
  cases r; rfl

theorem findObj_replace_self (l : List (ObjKey × Resource)) (k : ObjKey)
    (r r' : Resource) (hf : findObj l k = some r) :
    findObj (replaceObj l k r') k = some r' := by
  induction l with
  | nil => simp [findObj] at hf
  | cons p rest ih =>
    by_cases h : p.1 = k
    · cases p; simp_all [replaceObj, findObj]
    · cases p; simp_all [replaceObj, findObj]

/- ### C2: content sensitivity of HashObject -/

/-- A concrete deployment-like resource used in hash counterexamples. -/
def hashDemoA : Resource :=
  { apiVersion := "apps/v1", kind := "Deployment", name := "test",
    ns := "default", annots := [], resourceVersion := "1",
    creationTimestamp := "", content := "replicas:1", statusContent := "" }

/-- C2 as stated is false: HashObject is the FNV-1a digest of a dump of the
ENTIRE object, so two copies of a resource that differ only in the
store-assigned version token produce different digests, and two copies that
differ only in the fingerprint annotation itself also produce different
digests. -/
theorem C2_counterexample :
    HashObject hashDemoA ≠ HashObject { hashDemoA with resourceVersion := "2" } ∧
    HashObject hashDemoA ≠ HashObject (StoreHash hashDemoA "deadbeef") := by
  constructor
  · set_option maxRecDepth 200000 in decide
  · set_option maxRecDepth 200000 in decide

/-- C2 amended: the fingerprint is a deterministic function of the resource's
full dumped content — all fields, the transient store-assigned bookkeeping
fields and the fingerprint annotation itself included.  A deep copy hashes
identically, and any two resources with equal dumped content hash identically;
but copies differing only in the version token, or only in the fingerprint
annotation, are not in general digest-equal (witnessed concretely). -/
theorem C2_hash_covers_full_content :
    (∀ r : Resource, HashObject (deepCopy r) = HashObject r) ∧
    (∀ r₁ r₂ : Resource, dumpForHash r₁ = dumpForHash r₂ →
      HashObject r₁ = HashObject r₂) ∧
    HashObject { hashDemoA with resourceVersion := "7" } ≠
      HashObject { hashDemoA with resourceVersion := "8" } ∧
    HashObject (StoreHash hashDemoA "00000000") ≠
      HashObject (StoreHash hashDemoA "00000001") := by
  refine ⟨fun r => by rw [deepCopy_eq], fun r₁ r₂ h => by rw [HashObject, h, HashObject], ?_, ?_⟩
  · set_option maxRecDepth 200000 in decide
  · set_option maxRecDepth 200000 in decide

/-- Witness for the amended C2 theorem: its universally quantified congruence
part applied at a concrete input, hypotheses discharged by computation. -/
theorem C2_hash_covers_full_content_witness :
    HashObject (deepCopy hashDemoA) = HashObject hashDemoA ∧
    HashObject hashDemoA = HashObject hashDemoA :=
  ⟨C2_hash_covers_full_content.1 hashDemoA,
   C2_hash_covers_full_content.2.1 hashDemoA hashDemoA rfl⟩

/- ### C1: idempotence of CreateOrUpdateFromTemplate against the nominal store -/

theorem GetHash_setRv (r : Resource) (v : String) :
    GetHash { r with resourceVersion := v } = GetHash r := rfl

/-- Behaviour of CreateOrUpdateFromTemplate on the nominal store when the key
does not exist: the stamped copy is created, re-fetched, and returned. -/
theorem CoUFT_create_case {template : Resource} {s : Store}
    (hf : findObj s.objs (objectKeyFromObject template) = none) :
    CreateOrUpdateFromTemplate mapClient s template =
      ⟨.ok { StoreHash template (HashObject template) with
              resourceVersion := toString s.nextVer },
       ⟨(objectKeyFromObject template,
         { StoreHash template (HashObject template) with
            resourceVersion := toString s.nextVer }) :: s.objs,
        s.nextVer + 1⟩,
       ⟨2, 1, 0, 0⟩⟩ := by
  simp [CreateOrUpdateFromTemplate, mapClient, hf, isNotFoundErr, deepCopy_eq, findObj]

/-- Behaviour on the nominal store when the live object's stored fingerprint
already matches the template fingerprint: no write, the live object returned. -/
theorem CoUFT_skip_case {template : Resource} {s : Store} {live : Resource}
    (hf : findObj s.objs (objectKeyFromObject template) = some live)
    (hh : GetHash live = HashObject template) :
    CreateOrUpdateFromTemplate mapClient s template = ⟨.ok live, s, ⟨1, 0, 0, 0⟩⟩ := by
  simp [CreateOrUpdateFromTemplate, mapClient, deepCopy_eq, hf, hh]

/-- Behaviour on the nominal store when the live object's stored fingerprint
differs: the live object is stamped with the template fingerprint, updated,
re-fetched and returned. -/
theorem CoUFT_update_case {template : Resource} {s : Store} {live : Resource}
    (hf : findObj s.objs (objectKeyFromObject template) = some live)
    (hh : ¬ GetHash live = HashObject template) :
    CreateOrUpdateFromTemplate mapClient s template =
      ⟨.ok { StoreHash live (HashObject template) with
              resourceVersion := toString s.nextVer },
       ⟨replaceObj s.objs (objectKeyFromObject template)
          { StoreHash live (HashObject template) with
             resourceVersion := toString s.nextVer },
        s.nextVer + 1⟩,
       ⟨2, 0, 1, 0⟩⟩ := by
  have hrep := findObj_replace_self s.objs (objectKeyFromObject template) live
    { StoreHash live (HashObject template) with resourceVersion := toString s.nextVer } hf
  simp [CreateOrUpdateFromTemplate, mapClient, deepCopy_eq, hf, hh, hrep]

/-- True when the template still needs convergence in store s: its key is
absent, or present with a stored fingerprint differing from h. -/
def needsConvergeB (s : Store) (k : ObjKey) (h : String) : Bool :=
  match findObj s.objs k with
  | none => true
  | some r => GetHash r != h

/-- C1: for every template needing convergence, running
CreateOrUpdateFromTemplate twice against the nominal store with no intervening
external change performs exactly one write (create or update) on the first
call and zero writes on the second; the second call leaves the store
untouched, and the fingerprint annotation stored on the live object equals the
template fingerprint after both calls. -/
theorem C1_converge_idempotent (template : Resource) (s : Store)
    (h : needsConvergeB s (objectKeyFromObject template) (HashObject template) = true) :
    (CreateOrUpdateFromTemplate mapClient s template).tr.creates +
      (CreateOrUpdateFromTemplate mapClient s template).tr.updates = 1 ∧
    (CreateOrUpdateFromTemplate mapClient
        (CreateOrUpdateFromTemplate mapClient s template).st template).tr.creates +
      (CreateOrUpdateFromTemplate mapClient
        (CreateOrUpdateFromTemplate mapClient s template).st template).tr.updates = 0 ∧
    (CreateOrUpdateFromTemplate mapClient
        (CreateOrUpdateFromTemplate mapClient s template).st template).st =
      (CreateOrUpdateFromTemplate mapClient s template).st ∧
    (findObj (CreateOrUpdateFromTemplate mapClient s template).st.objs
        (objectKeyFromObject template)).map GetHash = some (HashObject template) ∧
    (findObj (CreateOrUpdateFromTemplate mapClient
        (CreateOrUpdateFromTemplate mapClient s template).st template).st.objs
        (objectKeyFromObject template)).map GetHash = some (HashObject template) := by
  cases hf : findObj s.objs (objectKeyFromObject template) with
  | none =>
    have e1 := CoUFT_create_case (s := s) hf
    have hf2 : findObj
        ((objectKeyFromObject template,
          { StoreHash template (HashObject template) with
             resourceVersion := toString s.nextVer }) :: s.objs)
        (objectKeyFromObject template) =
        some { StoreHash template (HashObject template) with
                resourceVersion := toString s.nextVer } := by
      simp [findObj]
    have hh2 : GetHash { StoreHash template (HashObject template) with
        resourceVersion := toString s.nextVer } = HashObject template := by
      rw [GetHash_setRv, GetHash_StoreHash]
    rw [e1]
    have e2 := CoUFT_skip_case (s := ⟨(objectKeyFromObject template,
        { StoreHash template (HashObject template) with
           resourceVersion := toString s.nextVer }) :: s.objs, s.nextVer + 1⟩) hf2 hh2
    rw [e2]
    refine ⟨rfl, rfl, rfl, ?_, ?_⟩ <;> simp [hf2, hh2]
  | some live =>
    have hh : ¬ GetHash live = HashObject template := by
      simpa [needsConvergeB, hf, bne_iff_ne] using h
    have e1 := CoUFT_update_case (s := s) hf hh
    have hf2 : findObj
        (replaceObj s.objs (objectKeyFromObject template)
          { StoreHash live (HashObject template) with
             resourceVersion := toString s.nextVer })
        (objectKeyFromObject template) =
        some { StoreHash live (HashObject template) with
                resourceVersion := toString s.nextVer } :=
      findObj_replace_self _ _ live _ hf
    have hh2 : GetHash { StoreHash live (HashObject template) with
        resourceVersion := toString s.nextVer } = HashObject template := by
      rw [GetHash_setRv, GetHash_StoreHash]
    rw [e1]
    have e2 := CoUFT_skip_case (s := ⟨replaceObj s.objs (objectKeyFromObject template)
        { StoreHash live (HashObject template) with
           resourceVersion := toString s.nextVer }, s.nextVer + 1⟩) hf2 hh2
    rw [e2]
    refine ⟨rfl, rfl, rfl, ?_, ?_⟩ <;> simp [hf2, hh2]

/-- Witness for C1: a concrete template converged twice against the empty
store, with the hypothesis discharged by computation. -/
theorem C1_converge_idempotent_witness :
    needsConvergeB emptyStore (objectKeyFromObject hashDemoA) (HashObject hashDemoA) = true ∧
    (CreateOrUpdateFromTemplate mapClient emptyStore hashDemoA).tr.creates +
      (CreateOrUpdateFromTemplate mapClient emptyStore hashDemoA).tr.updates = 1 ∧
    (CreateOrUpdateFromTemplate mapClient
        (CreateOrUpdateFromTemplate mapClient emptyStore hashDemoA).st hashDemoA).tr.creates +
      (CreateOrUpdateFromTemplate mapClient
        (CreateOrUpdateFromTemplate mapClient emptyStore hashDemoA).st hashDemoA).tr.updates = 0 :=
  ⟨rfl, (C1_converge_idempotent hashDemoA emptyStore rfl).1,
    (C1_converge_idempotent hashDemoA emptyStore rfl).2.1⟩

/- ### C8: creation path of CreateOrUpdateFromTemplate -/

/-- A client whose fetches always report NotFound and whose writes always
succeed: models a store whose reads lag its writes. -/
def ghostClient : Client Unit where
  get s _ := (.error (.notFound "lagging"), s)
  create s _ _ := (.ok (), s)
  update s _ _ := (.ok (), s)
  statusUpdate s _ _ := (.ok (), s)

/-- A client whose fetches always fail with a non-NotFound error. -/
def badClient : Client Unit where
  get s _ := (.error (.base "boom"), s)
  create s _ _ := (.ok (), s)
  update s _ _ := (.ok (), s)
  statusUpdate s _ _ := (.ok (), s)

/-- C8: on a key absent from the nominal store, CreateOrUpdateFromTemplate
creates the object stamped with the template fingerprint, re-fetches it once
(two gets, one create) and returns the fetched copy; against any client a
second NotFound on the post-create re-fetch is non-fatal and the stamped
working copy is returned; and any initial fetch error other than NotFound is
fatal and surfaced with context. -/
theorem C8_creation_path :
    (∀ (template : Resource) (s : Store),
      findObj s.objs (objectKeyFromObject template) = none →
      (CreateOrUpdateFromTemplate mapClient s template).tr = ⟨2, 1, 0, 0⟩ ∧
      ∃ st, (CreateOrUpdateFromTemplate mapClient s template).res = .ok st ∧
        findObj (CreateOrUpdateFromTemplate mapClient s template).st.objs
          (objectKeyFromObject template) = some st ∧
        GetHash st = HashObject template) ∧
    (∀ {σ : Type} (cl : Client σ) (s : σ) (template : Resource)
        (e₁ : GoErr) (s1 s2 : σ) (e₂ : GoErr) (s3 : σ),
      cl.get s (objectKeyFromObject template) = (.error e₁, s1) →
      isNotFoundErr e₁ = true →
      cl.create s1 (objectKeyFromObject template)
        (StoreHash template (HashObject template)) = (.ok (), s2) →
      cl.get s2 (objectKeyFromObject template) = (.error e₂, s3) →
      isNotFoundErr e₂ = true →
      (CreateOrUpdateFromTemplate cl s template).res =
        .ok (StoreHash template (HashObject template))) ∧
    (∀ {σ : Type} (cl : Client σ) (s : σ) (template : Resource)
        (e : GoErr) (s1 : σ),
      cl.get s (objectKeyFromObject template) = (.error e, s1) →
      isNotFoundErr e = false →
      (CreateOrUpdateFromTemplate cl s template).res =
        .error (.wrapped "failed to get object" e)) := by
  refine ⟨?_, ?_, ?_⟩
  · intro template s hf
    rw [CoUFT_create_case hf]
    refine ⟨rfl, _, rfl, ?_, ?_⟩
    · simp [findObj]
    · rw [GetHash_setRv, GetHash_StoreHash]
  · intro σ cl s template e₁ s1 s2 e₂ s3 h1 h2 h3 h4 h5
    simp [CreateOrUpdateFromTemplate, deepCopy_eq, h1, h2, h3, h4, h5]
  · intro σ cl s template e s1 h1 h2
    simp [CreateOrUpdateFromTemplate, deepCopy_eq, h1, h2]

/-- Witness for C8: each conjunct applied at a concrete input — the nominal
empty store, the lagging-read client, and the failing client. -/
theorem C8_creation_path_witness :
    (CreateOrUpdateFromTemplate mapClient emptyStore hashDemoA).tr = ⟨2, 1, 0, 0⟩ ∧
    (CreateOrUpdateFromTemplate ghostClient () hashDemoA).res =
      .ok (StoreHash hashDemoA (HashObject hashDemoA)) ∧
    (CreateOrUpdateFromTemplate badClient () hashDemoA).res =
      .error (.wrapped "failed to get object" (.base "boom")) :=
  ⟨(C8_creation_path.1 hashDemoA emptyStore rfl).1,
   C8_creation_path.2.1 ghostClient () hashDemoA (.notFound "lagging") () ()
     (.notFound "lagging") () rfl rfl rfl rfl rfl,
   C8_creation_path.2.2 badClient () hashDemoA (.base "boom") () rfl rfl⟩

/- ### C3: re-fetch behaviour of CreateOrUpdate -/

/-- A blank resource, as allocated by a caller before CreateOrUpdate. -/
def blankResource : Resource :=
  { apiVersion := "", kind := "", name := "", ns := "", annots := [],
    resourceVersion := "", creationTimestamp := "", content := "",
    statusContent := "" }

/-- C3 as stated is false: on the create branch CreateOrUpdate returns
immediately after a successful create, performing no post-create re-fetch —
the run below issues exactly one create and exactly one get (the initial
fetch), not the two gets the claim requires. -/
theorem C3_counterexample :
    (CreateOrUpdate mapClient emptyStore ⟨"obj", "default"⟩ blankResource none).res =
      .ok { blankResource with name := "obj", ns := "default" } ∧
    (CreateOrUpdate mapClient emptyStore ⟨"obj", "default"⟩ blankResource none).tr.creates = 1 ∧
    (CreateOrUpdate mapClient emptyStore ⟨"obj", "default"⟩ blankResource none).tr.gets = 1 ∧
    (CreateOrUpdate mapClient emptyStore ⟨"obj", "default"⟩ blankResource none).tr.gets ≠ 2 :=
  ⟨rfl, rfl, rfl, by decide⟩

/-- C3 amended: CreateOrUpdate re-fetches exactly once after a successful
update — tolerating a NotFound re-fetch as non-fatal, returning the fetched
copy on a successful re-fetch, and surfacing any other re-fetch error with
context — but performs no re-fetch after a successful create: that branch
returns immediately with only the initial fetch on its trace. -/
theorem C3_refetch_only_after_update :
    (∀ {σ : Type} (cl : Client σ) (s : σ) (key : ObjKey) (obj₀ : Resource)
        (f : MutateFunc) (live : Resource) (s1 : σ) (m : Resource) (s2 : σ),
      cl.get s key = (.ok live, s1) →
      applyMutate f live = .ok m →
      cl.update s1 key m = (.ok (), s2) →
      (CreateOrUpdate cl s key obj₀ f).tr.gets = 2 ∧
      (∀ ge s3, cl.get s2 key = (.error ge, s3) → isNotFoundErr ge = true →
        (CreateOrUpdate cl s key obj₀ f).res = .ok m) ∧
      (∀ fetched s3, cl.get s2 key = (.ok fetched, s3) →
        (CreateOrUpdate cl s key obj₀ f).res = .ok fetched) ∧
      (∀ ge s3, cl.get s2 key = (.error ge, s3) → isNotFoundErr ge = false →
        (CreateOrUpdate cl s key obj₀ f).res =
          .error (.wrapped "failed to get updated object" ge))) ∧
    (∀ {σ : Type} (cl : Client σ) (s : σ) (key : ObjKey) (obj₀ : Resource)
        (f : MutateFunc) (e : GoErr) (s1 : σ) (m : Resource) (s2 : σ),
      cl.get s key = (.error e, s1) →
      isNotFoundErr e = true →
      applyMutate f { obj₀ with name := key.name, ns := key.ns } = .ok m →
      cl.create s1 key m = (.ok (), s2) →
      (CreateOrUpdate cl s key obj₀ f).tr.gets = 1 ∧
      (CreateOrUpdate cl s key obj₀ f).res = .ok m) := by
  constructor
  · intro σ cl s key obj₀ f live s1 m s2 h1 h2 h3
    refine ⟨?_, ?_, ?_, ?_⟩
    · simp [CreateOrUpdate, h1, h2, h3]
      cases h4 : cl.get s2 key with
      | mk r s3 =>
        cases r with
        | error ge => by_cases hnf : isNotFoundErr ge <;> simp [hnf]
        | ok fetched => simp
    · intro ge s3 h4 h5
      simp [CreateOrUpdate, h1, h2, h3, h4, h5]
    · intro fetched s3 h4
      simp [CreateOrUpdate, h1, h2, h3, h4]
    · intro ge s3 h4 h5
      simp [CreateOrUpdate, h1, h2, h3, h4, h5]
  · intro σ cl s key obj₀ f e s1 m s2 h1 h2 h3 h4
    constructor <;> simp [CreateOrUpdate, h1, h2, h3, h4]

/-- One stored object fixture for update-path witnesses. -/
def storeWithDemo : Store :=
  ⟨[(⟨"test", "default"⟩, hashDemoA)], 2⟩

/-- A client whose first read succeeds and whose later reads fail with a
non-NotFound error; writes always succeed.  The Nat state counts reads. -/
def flakyReadClient : Client Nat where
  get s _ := if s = 0 then (.ok hashDemoA, 1) else (.error (.base "boom"), s + 1)
  create s _ _ := (.ok (), s)
  update s _ _ := (.ok (), s)
  statusUpdate s _ _ := (.ok (), s)

/-- Witness for the amended C3: the update path against the nominal store
containing the object (two gets), the update path against a client whose
re-fetch fails non-NotFound (error surfaced with context), and the create
path against the lagging-read client (one get, result the mutated blank
object). -/
theorem C3_refetch_only_after_update_witness :
    (CreateOrUpdate mapClient storeWithDemo ⟨"test", "default"⟩ blankResource none).tr.gets = 2 ∧
    (CreateOrUpdate flakyReadClient 0 ⟨"test", "default"⟩ blankResource none).res =
      .error (.wrapped "failed to get updated object" (.base "boom")) ∧
    (CreateOrUpdate ghostClient () ⟨"obj", "default"⟩ blankResource none).tr.gets = 1 ∧
    (CreateOrUpdate ghostClient () ⟨"obj", "default"⟩ blankResource none).res =
      .ok { blankResource with name := "obj", ns := "default" } :=
  ⟨(C3_refetch_only_after_update.1 mapClient storeWithDemo ⟨"test", "default"⟩
      blankResource none hashDemoA storeWithDemo hashDemoA
      ⟨[(⟨"test", "default"⟩, { hashDemoA with resourceVersion := "2" })], 3⟩
      rfl rfl rfl).1,
   (C3_refetch_only_after_update.1 flakyReadClient 0 ⟨"test", "default"⟩
      blankResource none hashDemoA 1 hashDemoA 1 rfl rfl rfl).2.2.2
      (.base "boom") 2 rfl rfl,
   (C3_refetch_only_after_update.2 ghostClient () ⟨"obj", "default"⟩
      blankResource none (.notFound "lagging") ()
      { blankResource with name := "obj", ns := "default" } () rfl rfl rfl rfl).1,
   (C3_refetch_only_after_update.2 ghostClient () ⟨"obj", "default"⟩
      blankResource none (.notFound "lagging") ()
      { blankResource with name := "obj", ns := "default" } () rfl rfl rfl rfl).2⟩

/- ### C4: UpdateStatus always writes status when fetch and mutation succeed -/

/-- C4: against any client, whenever the initial fetch succeeds and the
optional mutation callback succeeds, both UpdateStatus variants issue exactly
one status sub-resource write — there is no hash-based skip on this path. -/
theorem C4_status_always_writes :
    ∀ {σ : Type} (cl : Client σ) (s : σ) (key : ObjKey) (f : MutateFunc)
      (live : Resource) (s1 : σ) (m : Resource),
      cl.get s key = (.ok live, s1) →
      applyMutate f live = .ok m →
      (UpdateStatus cl s key f).tr.statusWrites = 1 ∧
      (UpdateStatusRefetch cl s key f).tr.statusWrites = 1 := by
  intro σ cl s key f live s1 m h1 h2
  constructor
  · simp only [UpdateStatus, h1, h2]
    cases h3 : cl.statusUpdate s1 key m with
    | mk r s2 => cases r <;> simp
  · simp only [UpdateStatusRefetch, h1, h2]
    cases h3 : cl.statusUpdate s1 key m with
    | mk r s2 =>
      cases r with
      | error ue => simp
      | ok u =>
        cases u
        cases h4 : cl.get s2 key with
        | mk r2 s3 =>
          cases r2 with
          | error ge => by_cases hnf : isNotFoundErr ge <;> simp [h4, hnf]
          | ok fetched => simp [h4]

/-- Witness for C4: a no-op mutation on an existing object in the nominal
store results in exactly one status write for both variants. -/
theorem C4_status_always_writes_witness :
    (UpdateStatus mapClient storeWithDemo ⟨"test", "default"⟩ none).tr.statusWrites = 1 ∧
    (UpdateStatusRefetch mapClient storeWithDemo ⟨"test", "default"⟩ none).tr.statusWrites = 1 :=
  C4_status_always_writes mapClient storeWithDemo ⟨"test", "default"⟩ none
    hashDemoA storeWithDemo hashDemoA rfl rfl

/- ### C9: the caller's template object is never mutated -/

theorem heapWriteFrame (heap : Heap) (c x : Resource) (tp : Nat)
    (h : tp < heap.length) :
    ((heap ++ [c]).set heap.length x)[tp]? = heap[tp]? := by
  rw [List.getElem?_set_ne (by omega), List.getElem?_append, if_pos h]

/-- C9: CreateOrUpdateFromTemplate never mutates the caller-supplied template
object.  At the pointer level, every mutation — fingerprint stamping and
filling from fetches — targets the freshly allocated deep copy, so the heap
cell holding the template (annotations included) is unchanged after the call,
whatever the client does and whether the call succeeds or fails. -/
theorem C9_template_not_mutated :
    ∀ {σ : Type} (cl : Client σ) (s : σ) (heap : Heap) (tp : Nat),
      tp < heap.length →
      ((CreateOrUpdateFromTemplateHeap cl s heap tp).2.1)[tp]? = heap[tp]? := by
  intro σ cl s heap tp h
  cases ht : heap[tp]? with
  | none => simp [CreateOrUpdateFromTemplateHeap, ht]
  | some template =>
    simp only [CreateOrUpdateFromTemplateHeap, ht]
    repeat' split
    all_goals simp_all [List.set_set, heapWriteFrame, List.getElem?_append, h]

/-- Witness for C9: a one-cell heap holding a concrete template, against the
nominal empty store: the template cell reads back unchanged. -/
theorem C9_template_not_mutated_witness :
    ((CreateOrUpdateFromTemplateHeap mapClient emptyStore [hashDemoA] 0).2.1)[0]? =
      some hashDemoA :=
  C9_template_not_mutated mapClient emptyStore [hashDemoA] 0 (by decide)

/- ### Resolver fixtures (mirroring the repository's reference test setup) -/

def gvkMyObject : GVK := ⟨"example.com", "v1", "MyObject"⟩
def gvkSecret : GVK := ⟨"", "v1", "Secret"⟩
def gvkConfigMap : GVK := ⟨"", "v1", "ConfigMap"⟩

/-- A scheme in which only the caller's own custom type is registered (the
core v1 Secret and ConfigMap types deliberately are not). -/
def schemeDemo : Scheme := [gvkMyObject]

/-- A scheme with the custom type and the core v1 types all registered. -/
def schemeFull : Scheme := [gvkMyObject, gvkSecret, gvkConfigMap]

def parentDemo : Resource :=
  { apiVersion := "example.com/v1", kind := "MyObject", name := "second",
    ns := "default", annots := [], resourceVersion := "",
    creationTimestamp := "", content := "", statusContent := "" }

def myObjectRes : Resource :=
  { apiVersion := "example.com/v1", kind := "MyObject", name := "first",
    ns := "default", annots := [], resourceVersion := "1",
    creationTimestamp := "", content := "", statusContent := "" }

def secretRes : Resource :=
  { apiVersion := "v1", kind := "Secret", name := "demo", ns := "default",
    annots := [], resourceVersion := "1", creationTimestamp := "",
    content := "secret:change-me", statusContent := "" }

def configMapRes : Resource :=
  { apiVersion := "v1", kind := "ConfigMap", name := "cfg", ns := "default",
    annots := [], resourceVersion := "1", creationTimestamp := "",
    content := "key:value", statusContent := "" }

/-- A reader backed by three stored objects; everything else is NotFound. -/
def demoReader : Reader := fun c =>
  if c = ⟨"example.com/v1", "MyObject", "first", "default"⟩ then .ok myObjectRes
  else if c = ⟨"v1", "Secret", "demo", "default"⟩ then .ok secretRes
  else if c = ⟨"v1", "ConfigMap", "cfg", "default"⟩ then .ok configMapRes
  else .error (.notFound c.name)

/- ### C7: the effective key of a resolution -/

/-- C7: Resolve fetches the target under the effective key — the reference's
namespace when non-empty, else the parent's namespace, and the reference's
apiVersion when non-empty, else the one derived from the parent's registered
type identity — and when the parent's kind cannot be determined from the
registry the apiVersion derivation error is surfaced and no fetch happens. -/
theorem C7_effective_key :
    ∀ (ref : ObjectReference) (reader : Reader) (scheme : Scheme) (parent : Resource),
      (∀ av, effectiveApiVersion ref scheme parent = .ok av →
        (ObjectReference.Resolve ref reader scheme parent).2 =
          [⟨av, ref.kind, ref.name, effectiveNamespace ref parent⟩]) ∧
      (ref.apiVersion ≠ "" →
        effectiveApiVersion ref scheme parent = .ok ref.apiVersion) ∧
      (ref.ns ≠ "" → effectiveNamespace ref parent = ref.ns) ∧
      (ref.ns = "" → effectiveNamespace ref parent = parent.ns) ∧
      (ref.apiVersion = "" → ∀ g gs, objectKinds scheme parent = .ok (g :: gs) →
        effectiveApiVersion ref scheme parent = .ok (groupVersionString g)) ∧
      (ref.apiVersion = "" → ∀ e, objectKinds scheme parent = .error e →
        (ObjectReference.Resolve ref reader scheme parent).1 =
          .error (.wrapped "failed to get object kinds" e) ∧
        (ObjectReference.Resolve ref reader scheme parent).2 = []) := by
  intro ref reader scheme parent
  refine ⟨?_, ?_, ?_, ?_, ?_, ?_⟩
  · intro av hav
    simp only [ObjectReference.Resolve, hav]
    cases hr : reader ⟨av, ref.kind, ref.name, effectiveNamespace ref parent⟩ with
    | error e => by_cases hnf : isNotFoundErr e <;> simp [hnf]
    | ok u => by_cases hd : decodeRegistered scheme u <;> simp [hd]
  · intro h; simp [effectiveApiVersion, h]
  · intro h; simp [effectiveNamespace, h]
  · intro h; simp [effectiveNamespace, h]
  · intro h g gs hk; simp [effectiveApiVersion, h, hk]
  · intro h e hk
    constructor <;> simp [ObjectReference.Resolve, effectiveApiVersion, h, hk]

/-- Witness for C7: a reference with empty namespace and empty apiVersion
resolving against a parent whose type is registered (the fetch key carries
the parent's derived apiVersion and namespace), and a fully explicit
reference (its own apiVersion is used). -/
theorem C7_effective_key_witness :
    (ObjectReference.Resolve ⟨"first", "", "", "MyObject"⟩ demoReader schemeDemo parentDemo).2 =
      [⟨"example.com/v1", "MyObject", "first", "default"⟩] ∧
    effectiveApiVersion ⟨"x", "ns2", "v1", "Secret"⟩ schemeDemo parentDemo = .ok "v1" ∧
    effectiveNamespace ⟨"x", "ns2", "v1", "Secret"⟩ parentDemo = "ns2" :=
  ⟨(C7_effective_key ⟨"first", "", "", "MyObject"⟩ demoReader schemeDemo parentDemo).1
      "example.com/v1" rfl,
   (C7_effective_key ⟨"x", "ns2", "v1", "Secret"⟩ demoReader schemeDemo parentDemo).2.1
      (by decide),
   (C7_effective_key ⟨"x", "ns2", "v1", "Secret"⟩ demoReader schemeDemo parentDemo).2.2.1
      (by decide)⟩

/- ### C5: retryability of resolution failures -/

/-- Errors arising while determining the effective apiVersion are plain
wrapped errors, never the retryable tag. -/
theorem effectiveApiVersion_error_not_retryable (ref : ObjectReference)
    (scheme : Scheme) (parent : Resource) (e' : GoErr) :
    effectiveApiVersion ref scheme parent = .error e' → IsRetryable e' = false := by
  simp only [effectiveApiVersion]
  by_cases h : ref.apiVersion = ""
  · simp only [h, if_pos rfl]
    cases hk : objectKinds scheme parent with
    | error ke => intro hx; cases hx; rfl
    | ok gs =>
      cases gs with
      | nil => intro hx; cases hx; rfl
      | cons g rest => intro hx; cases hx
  · simp only [if_neg h]
    intro hx; cases hx

/-- C5: a fetch of the reference target that reports NotFound makes Resolve
return the cause wrapped by the retryable tag, for which IsRetryable is true;
and conversely every error Resolve returns for which IsRetryable is true is
such a wrapped NotFound fetch error — every other resolution failure (fetch
error other than NotFound, kind-undeterminable error) is non-retryable. -/
theorem C5_retryability :
    ∀ (ref : ObjectReference) (reader : Reader) (scheme : Scheme) (parent : Resource),
      (∀ av cause, effectiveApiVersion ref scheme parent = .ok av →
        reader ⟨av, ref.kind, ref.name, effectiveNamespace ref parent⟩ = .error cause →
        isNotFoundErr cause = true →
        (ObjectReference.Resolve ref reader scheme parent).1 = .error (Retryable cause) ∧
        IsRetryable (Retryable cause) = true) ∧
      (∀ e, (ObjectReference.Resolve ref reader scheme parent).1 = .error e →
        IsRetryable e = true →
        ∃ av cause, effectiveApiVersion ref scheme parent = .ok av ∧
          reader ⟨av, ref.kind, ref.name, effectiveNamespace ref parent⟩ = .error cause ∧
          isNotFoundErr cause = true ∧ e = Retryable cause) := by
  intro ref reader scheme parent
  constructor
  · intro av cause hav hr hnf
    simp [ObjectReference.Resolve, hav, hr, hnf, IsRetryable, Retryable]
  · intro e he hret
    cases hav : effectiveApiVersion ref scheme parent with
    | error e' =>
      simp [ObjectReference.Resolve, hav] at he
      subst he
      have hfalse := effectiveApiVersion_error_not_retryable ref scheme parent e' hav
      simp [hfalse] at hret
    | ok av =>
      simp only [ObjectReference.Resolve, hav] at he
      cases hr : reader ⟨av, ref.kind, ref.name, effectiveNamespace ref parent⟩ with
      | error cause =>
        by_cases hnf : isNotFoundErr cause = true
        · simp [hr, hnf] at he
          subst he
          exact ⟨av, cause, rfl, hr, hnf, rfl⟩
        · simp [hr, hnf] at he
          subst he
          simp [IsRetryable] at hret
      | ok u =>
        by_cases hd : decodeRegistered scheme u = true <;> simp [hr, hd] at he

/-- Witness for C5: resolving a reference to a nonexistent Secret yields the
retryable-tagged NotFound error. -/
theorem C5_retryability_witness :
    (ObjectReference.Resolve ⟨"missing", "", "v1", "Secret"⟩ demoReader schemeDemo
        parentDemo).1 = .error (Retryable (.notFound "missing")) ∧
    IsRetryable (Retryable (.notFound "missing")) = true :=
  (C5_retryability ⟨"missing", "", "v1", "Secret"⟩ demoReader schemeDemo parentDemo).1
    "v1" (.notFound "missing") rfl rfl rfl

/- ### C6: cross-schema decode fallback -/

/-- C6: when the target exists, Resolve returns the concrete registered type
when the fetched object's type is registered in the scheme, and the generic
(unstructured) representation with no error when it is not. -/
theorem C6_decode_fallback :
    ∀ (ref : ObjectReference) (reader : Reader) (scheme : Scheme) (parent : Resource)
      (av : String) (u : Resource),
      effectiveApiVersion ref scheme parent = .ok av →
      reader ⟨av, ref.kind, ref.name, effectiveNamespace ref parent⟩ = .ok u →
      (decodeRegistered scheme u = true →
        (ObjectReference.Resolve ref reader scheme parent).1 = .ok (.concrete u)) ∧
      (decodeRegistered scheme u = false →
        (ObjectReference.Resolve ref reader scheme parent).1 = .ok (.generic u)) := by
  intro ref reader scheme parent av u hav hr
  constructor <;> intro hd <;> simp [ObjectReference.Resolve, hav, hr, hd]

/-- Witness for C6: against the scheme registering only the custom type, a
reference to the custom object decodes concretely while a reference to the
(unregistered) Secret falls back to the generic representation, errorless. -/
theorem C6_decode_fallback_witness :
    (ObjectReference.Resolve ⟨"first", "", "example.com/v1", "MyObject"⟩ demoReader
        schemeDemo parentDemo).1 = .ok (.concrete myObjectRes) ∧
    (ObjectReference.Resolve ⟨"demo", "", "v1", "Secret"⟩ demoReader
        schemeDemo parentDemo).1 = .ok (.generic secretRes) :=
  ⟨(C6_decode_fallback ⟨"first", "", "example.com/v1", "MyObject"⟩ demoReader schemeDemo
      parentDemo "example.com/v1" myObjectRes rfl rfl).1 (by decide),
   (C6_decode_fallback ⟨"demo", "", "v1", "Secret"⟩ demoReader schemeDemo
      parentDemo "v1" secretRes rfl rfl).2 (by decide)⟩

/- ### C10: the local specializations panic on the generic fallback -/

/-- C10: with a scheme in which the core v1 Secret and ConfigMap types are
not registered, LocalSecretReference.Resolve and
LocalConfigMapReference.Resolve reach the cross-schema fallback (the resolved
object is the generic representation) and their unchecked type assertions
panic instead of returning an error; with the types registered, the same
calls return the concrete objects, so the specializations are total exactly
when the resolved object decodes to the expected concrete type. -/
theorem C10_local_assert_panics :
    LocalSecretReference.Resolve ⟨"demo"⟩ demoReader schemeDemo parentDemo = .panicked ∧
    LocalConfigMapReference.Resolve ⟨"cfg"⟩ demoReader schemeDemo parentDemo = .panicked ∧
    LocalSecretReference.Resolve ⟨"demo"⟩ demoReader schemeFull parentDemo = .ok secretRes ∧
    LocalConfigMapReference.Resolve ⟨"cfg"⟩ demoReader schemeFull parentDemo = .ok configMapRes := by
  refine ⟨?_, ?_, ?_, ?_⟩ <;> decide

end OpUtils
